import Mathlib

/-!
Verification development for the ADS-B track service
(`src/track-service/main.py`).

The Python source is shallowly embedded below: each definition mirrors one
function or code region of `main.py` (the source line numbers are cited in
the doc comments).  JSON numeric payloads (latitude, altitude, speeds, ...)
are abstracted as integers; every claim settled here depends only on the
presence or absence of those values, never on their arithmetic.  Wall-clock
instants and time spans are modelled as integer seconds.  Python `dict`
lookups are modelled with association lists (`List (key, value)`), and a
missing/`None` value with `Option`.
-/

namespace AdsbTrack

/-- Python `str.upper()` as used on aircraft identifiers (ASCII hex codes):
uppercase every character. -/
def strUpper (s : String) : String := ⟨s.data.map Char.toUpper⟩

/-- Python `str.lower()` as used on aircraft identifiers (ASCII hex codes):
lowercase every character. -/
def strLower (s : String) : String := ⟨s.data.map Char.toLower⟩

/-- The three storage tiers of the position stream (main.py:531-539,
main.py:603-615): raw `aircraft_positions`, minute-bucketed
`aircraft_tracks_1min`, five-minute-bucketed `aircraft_tracks_5min`. -/
inductive Tier
  | raw
  | oneMin
  | fiveMin
  deriving DecidableEq, Repr

/-- SQL table backing each tier. -/
def tierTable : Tier → String
  | Tier.raw => "aircraft_positions"
  | Tier.oneMin => "aircraft_tracks_1min"
  | Tier.fiveMin => "aircraft_tracks_5min"

/-- Time column of each tier (`time` on the raw table, `bucket` on the
aggregates). -/
def tierTimeCol : Tier → String
  | Tier.raw => "time"
  | Tier.oneMin => "bucket"
  | Tier.fiveMin => "bucket"

/-- Python `timedelta(days=n)` expressed in seconds. -/
def daysToSeconds (n : Int) : Int := n * 86400

/-- Tier choice of `get_aircraft_track` (main.py:529-539).  `resolution` is
the string received by the handler; `timeRangeSec` is `end - start` in
seconds. -/
def chooseTrackTier (resolution : String) (timeRangeSec : Int) : Tier :=
  if resolution = "5min" ∨ timeRangeSec > daysToSeconds 30 then Tier.fiveMin
  else if resolution = "1min" ∨ timeRangeSec > daysToSeconds 7 then Tier.oneMin
  else Tier.raw

/-- Tier choice of `get_bulk_tracks_timelapse` (main.py:599-615). -/
def chooseBulkTier (resolution : String) (timeRangeSec : Int) : Tier :=
  if resolution = "full" then Tier.raw
  else if resolution = "5min" ∨ (resolution = "auto" ∧ timeRangeSec > daysToSeconds 7) then
    Tier.fiveMin
  else if resolution = "1min" ∨ (resolution = "auto" ∧ timeRangeSec > daysToSeconds 2) then
    Tier.oneMin
  else Tier.raw

/-- The FastAPI validation regex `^(full|1min|5min)$` applied to the
`resolution` query parameter of both endpoints (main.py:509, main.py:582). -/
def resolutionAllowed (s : String) : Bool :=
  s == "full" || s == "1min" || s == "5min"

/-- Default `resolution` for `get_aircraft_track` (main.py:509). -/
def trackResolutionDefault : String := "full"

/-- Default `resolution` for `get_bulk_tracks_timelapse` (main.py:582). -/
def bulkResolutionDefault : String := "5min"

/-- A caller's explicit resolution request on the per-aircraft endpoint;
`none` means the query parameter was omitted. -/
inductive ResolutionReq
  | full
  | oneMin
  | fiveMin
  deriving DecidableEq, Repr

/-- The string the `get_aircraft_track` handler actually receives for a
given request: FastAPI substitutes the default `"full"` when the parameter
is omitted (main.py:509), so an explicit `full` and an omitted parameter
are indistinguishable to the handler. -/
def trackResolutionParam : Option ResolutionReq → String
  | none => "full"
  | some ResolutionReq.full => "full"
  | some ResolutionReq.oneMin => "1min"
  | some ResolutionReq.fiveMin => "5min"

/-- Stated from the claim's words (spec §4.3, per-aircraft lookup), for
comparison with `chooseTrackTier`: explicit `5min`, or no explicit request
with span > 30 days, selects the five-minute tier; explicit `1min`, or no
explicit request with span > 7 days, the minute tier; every other case
(including an explicit `full` at any span) the raw tier. -/
def claimTrackTier (req : Option ResolutionReq) (timeRangeSec : Int) : Tier :=
  if req = some ResolutionReq.fiveMin ∨ (req = none ∧ timeRangeSec > daysToSeconds 30) then
    Tier.fiveMin
  else if req = some ResolutionReq.oneMin ∨ (req = none ∧ timeRangeSec > daysToSeconds 7) then
    Tier.oneMin
  else Tier.raw

/-- Amended per-aircraft tier rule: the span thresholds are not gated on
the request being absent, and an explicit `full` is identical to an
omitted parameter.  Explicit `5min`, or span > 30 days, selects the
five-minute tier; otherwise explicit `1min`, or span > 7 days, the minute
tier; otherwise raw. -/
def amendedTrackTier (req : Option ResolutionReq) (timeRangeSec : Int) : Tier :=
  if req = some ResolutionReq.fiveMin ∨ timeRangeSec > daysToSeconds 30 then Tier.fiveMin
  else if req = some ResolutionReq.oneMin ∨ timeRangeSec > daysToSeconds 7 then Tier.oneMin
  else Tier.raw

/-- One aircraft entry of the feeder snapshot (`aircraft.json`), as read by
`store_positions` and `is_military_aircraft` via `dict.get` (main.py:267-308):
each field is `none` when the key is absent from the JSON object. -/
structure Aircraft where
  hex : Option String := none
  flight : Option String := none
  lat : Option Int := none
  lon : Option Int := none
  alt_baro : Option Int := none
  alt_geom : Option Int := none
  gs : Option Int := none
  track : Option Int := none
  baro_rate : Option Int := none
  squawk : Option String := none
  emergency : Option String := none
  category : Option String := none
  nav_altitude_mcp : Option Int := none
  rssi : Option Int := none
  messages : Option Int := none
  seen : Option Int := none
  r : Option String := none
  t : Option String := none
  desc : Option String := none
  ownOp : Option String := none
  year : Option Int := none
  deriving Repr

/-- Value stored per identifier in the military database
(main.py:192-197); the source dict keys are `tail`, `type`, `flag`,
`description` (`type` is rendered here as `typeCode`). -/
structure MilEntry where
  tail : String
  typeCode : String
  flag : String
  description : String
  deriving DecidableEq, Repr

/-- The in-memory military database: a mapping from uppercased identifier
to its descriptor. -/
abbrev MilDb := List (String × MilEntry)

/-- The filtering loop of `load_military_database` (main.py:189-197):
from the parsed JSON object (identifier to `[tail, type, flag,
description?]`) keep exactly the entries whose info array has length ≥ 3
and whose flag (index 2) is the sentinel `"10"`, keying them by the
uppercased identifier.  `info.getD 3 ""` matches
`aircraft_info[3] if len(aircraft_info) > 3 else ""`. -/
def buildMilitaryDb (dbData : List (String × List String)) : MilDb :=
  dbData.filterMap fun entry =>
    let info := entry.2
    if 3 ≤ info.length ∧ info.getD 2 "" = "10" then
      some (strUpper entry.1,
        { tail := info.getD 0 "", typeCode := info.getD 1 "",
          flag := info.getD 2 "", description := info.getD 3 "" })
    else none

/-- The collector's military-database state (main.py:156-158). -/
structure MilState where
  military_database : Option MilDb
  military_db_last_updated : Option Int
  military_db_loading : Bool
  deriving Repr

/-- Outcome of the network fetch inside `load_military_database`:
`success` stands for an HTTP 200 response whose body parses,
`httpStatus` for a non-200 response (main.py:204-208), `timedOut` for
`asyncio.TimeoutError` (main.py:210-214), and `parseFailure` for any other
exception, in particular a `json.loads` failure (main.py:215-219). -/
inductive MilFetchOutcome
  | success (dbData : List (String × List String))
  | httpStatus (status : Nat)
  | timedOut
  | parseFailure
  deriving Repr

/-- The 24-hour cache-validity test of `load_military_database`
(main.py:171-173): the database object exists, a last-update instant is
recorded, and less than 24 hours have elapsed since it. -/
def cacheValid (st : MilState) (now : Int) : Bool :=
  st.military_database.isSome &&
    (match st.military_db_last_updated with
     | some tUpd => decide (now - tUpd < 24 * 3600)
     | none => false)

/-- `load_military_database` (main.py:162-221) as a state transformer:
returns the new state and the boolean the coroutine returns.  The
`military_db_loading` flag is set on entry and cleared in `finally`, so
its net value is unchanged; an in-progress load returns `False` at once
(main.py:164-166); a still-valid cache returns `True` without refetching
(main.py:171-175); a 200-and-parsed body installs the filtered database
and the refresh instant (main.py:199-203); every failure outcome installs
an empty mapping, still records the refresh instant, and returns `False`
(no exception escapes: each handler ends in `return False`). -/
def load_military_database (st : MilState) (outcome : MilFetchOutcome) (now : Int) :
    MilState × Bool :=
  if st.military_db_loading then (st, false)
  else if cacheValid st now then (st, true)
  else
    match outcome with
    | MilFetchOutcome.success dbData =>
        ({ st with military_database := some (buildMilitaryDb dbData),
                   military_db_last_updated := some now }, true)
    | MilFetchOutcome.httpStatus _ =>
        ({ st with military_database := some [],
                   military_db_last_updated := some now }, false)
    | MilFetchOutcome.timedOut =>
        ({ st with military_database := some [],
                   military_db_last_updated := some now }, false)
    | MilFetchOutcome.parseFailure =>
        ({ st with military_database := some [],
                   military_db_last_updated := some now }, false)

/-- `is_military_aircraft` (main.py:223-234): `False` when the database
was never loaded; `False` when the `hex` key is absent or falsy (the
empty string); otherwise membership of the uppercased code among the
database keys. -/
def is_military_aircraft (st : MilState) (aircraft : Aircraft) : Bool :=
  match st.military_database with
  | none => false
  | some db =>
      match aircraft.hex with
      | none => false
      | some hexCode =>
          if hexCode = "" then false
          else (db.lookup (strUpper hexCode)).isSome

/-- One row destined for `aircraft_positions` (the tuple built at
main.py:277-295). -/
structure PositionRecord where
  time : Int
  icao : String
  flight : Option String
  lat : Int
  lon : Int
  alt_baro : Option Int
  alt_geom : Option Int
  gs : Option Int
  track : Option Int
  baro_rate : Option Int
  squawk : Option String
  emergency : Option String
  category : Option String
  nav_altitude_mcp : Option Int
  rssi : Option Int
  messages : Option Int
  seen : Option Int
  deriving Repr

/-- One row destined for the `aircraft_metadata` upsert (the tuple built
at main.py:300-308), with the SQL column names of main.py:329. -/
structure MetadataUpdate where
  icao : String
  registration : Option String
  aircraft_type : Option String
  type_description : Option String
  owner_operator : Option String
  year : Option Int
  is_military : Bool
  deriving Repr

/-- Python truthiness of an optional string (`aircraft.get('r')` used as a
condition, main.py:298): true exactly for a present, non-empty value. -/
def truthyStr : Option String → Bool
  | some s => !(s == "")
  | none => false

/-- The flight-callsign normalization
`aircraft.get('flight', '').strip() if aircraft.get('flight') else None`
(main.py:280): a falsy (absent or empty) callsign becomes NULL, otherwise
it is whitespace-stripped. -/
def normalizeFlight : Option String → Option String
  | some s => if s = "" then none else some s.trim
  | none => none

/-- The per-entry transform step of `store_positions` (main.py:267-308):
an entry lacking the `lat` or `lon` key is skipped entirely; then the
identifier is lowercased and, if empty (absent or empty `hex`), the entry
is skipped entirely; otherwise one position record is built, plus one
metadata update when the entry carries truthy registration, type, or
category information. -/
def processAircraft (st : MilState) (now : Int) (a : Aircraft) :
    Option PositionRecord × Option MetadataUpdate :=
  if a.lat.isNone || a.lon.isNone then (none, none)
  else
    let icao := strLower (a.hex.getD "")
    if icao = "" then (none, none)
    else
      let pos : PositionRecord :=
        { time := now, icao := icao, flight := normalizeFlight a.flight,
          lat := a.lat.getD 0, lon := a.lon.getD 0, alt_baro := a.alt_baro,
          alt_geom := a.alt_geom, gs := a.gs, track := a.track,
          baro_rate := a.baro_rate, squawk := a.squawk, emergency := a.emergency,
          category := a.category, nav_altitude_mcp := a.nav_altitude_mcp,
          rssi := a.rssi, messages := a.messages, seen := a.seen }
      let md : Option MetadataUpdate :=
        if truthyStr a.r || truthyStr a.t || truthyStr a.category then
          some { icao := icao, registration := a.r, aircraft_type := a.t,
                 type_description := a.desc, owner_operator := a.ownOp,
                 year := a.year, is_military := is_military_aircraft st a }
        else none
      (some pos, md)

/-- The whole transform loop of `store_positions` over a snapshot's
aircraft list (main.py:263-308): the batched position rows and metadata
updates, in snapshot order. -/
def store_positions_transform (st : MilState) (now : Int) (aircraftList : List Aircraft) :
    List PositionRecord × List MetadataUpdate :=
  (aircraftList.filterMap (fun a => (processAircraft st now a).1),
   aircraftList.filterMap (fun a => (processAircraft st now a).2))

/-- One row of the `aircraft_metadata` table (columns of main.py:329). -/
structure MetadataRow where
  icao : String
  registration : Option String
  aircraft_type : Option String
  type_description : Option String
  owner_operator : Option String
  year : Option Int
  is_military : Bool
  last_seen : Int
  total_sightings : Nat
  deriving Repr

/-- SQL `COALESCE(a, b)` on two nullable values. -/
def coalesce {α : Type} (excluded existing : Option α) : Option α :=
  match excluded with
  | some v => some v
  | none => existing

/-- The metadata upsert statement (main.py:327-340) applied to one update:
with no existing row, `INSERT ... VALUES (..., NOW(), 1)` creates the row
with sighting count 1; on conflict, each textual/numeric column gets
`COALESCE(EXCLUDED.col, existing.col)`, the military flag is overwritten
unconditionally, `last_seen` is set to now, and `total_sightings` is
incremented by one. -/
def upsertMetadata (existing : Option MetadataRow) (u : MetadataUpdate) (now : Int) :
    MetadataRow :=
  match existing with
  | none =>
      { icao := u.icao, registration := u.registration,
        aircraft_type := u.aircraft_type, type_description := u.type_description,
        owner_operator := u.owner_operator, year := u.year,
        is_military := u.is_military, last_seen := now, total_sightings := 1 }
  | some row =>
      { row with
        registration := coalesce u.registration row.registration,
        aircraft_type := coalesce u.aircraft_type row.aircraft_type,
        type_description := coalesce u.type_description row.type_description,
        owner_operator := coalesce u.owner_operator row.owner_operator,
        year := coalesce u.year row.year,
        is_military := u.is_military,
        last_seen := now,
        total_sightings := row.total_sightings + 1 }

/-- A sequence of upserts for one identifier, each tagged with its `NOW()`
instant, applied to an initial row state (`none` = no row yet). -/
def applyUpserts (initial : Option MetadataRow) (updates : List (MetadataUpdate × Int)) :
    Option MetadataRow :=
  updates.foldl (fun st u => some (upsertMetadata st u.1 u.2)) initial

/-- The sighting count visible in a (possibly absent) metadata row. -/
def sightingsOf : Option MetadataRow → Nat
  | some row => row.total_sightings
  | none => 0

/-- One row of the tier table queried by `get_bulk_tracks_timelapse`
(`timeVal` is the value of the tier's time column, `time` or `bucket`). -/
structure TierPosition where
  icao : String
  timeVal : Int
  lat : Int
  lon : Int
  alt_baro : Option Int
  flight : Option String
  gs : Option Int
  track : Option Int
  deriving DecidableEq, Repr

/-- The `aircraft_metadata` table as seen by the bulk query's military
filter: identifier to the nullable `is_military` column. -/
abbrev MetadataTable := List (String × Option Bool)

/-- The military filter of the ranked-aircraft CTE (main.py:632-637):
`LEFT JOIN aircraft_metadata m_filter ON t.icao = m_filter.icao` followed
by `AND (m_filter.is_military = true OR m_filter.is_military IS NULL)`.
An absent metadata row makes the joined column NULL, so it passes; a NULL
flag passes; otherwise the flag's value decides. -/
def militaryFilterPasses (meta : MetadataTable) (icao : String) : Bool :=
  match meta.lookup icao with
  | none => true
  | some none => true
  | some (some b) => b

/-- The `time_col BETWEEN $1 AND $2` window filter (main.py:618),
inclusive on both ends. -/
def inWindow (startT endT : Int) (p : TierPosition) : Bool :=
  decide (startT ≤ p.timeVal) && decide (p.timeVal ≤ endT)

/-- The optional `alt_baro >= min` / `alt_baro <= max` filters
(main.py:622-630); a NULL altitude never satisfies an SQL comparison, so
a row without `alt_baro` is dropped whenever either bound is given. -/
def passesAltFilters (minAlt maxAlt : Option Int) (p : TierPosition) : Bool :=
  (match minAlt with
   | some m => match p.alt_baro with
     | some alt => decide (m ≤ alt)
     | none => false
   | none => true) &&
  (match maxAlt with
   | some m => match p.alt_baro with
     | some alt => decide (alt ≤ m)
     | none => false
   | none => true)

/-- Rows of the chosen tier table satisfying the shared window and
altitude filters (the `filters` list of main.py:618-630, applied both in
the CTE and in the outer SELECT). -/
def filteredPositions (tbl : List TierPosition) (startT endT : Int)
    (minAlt maxAlt : Option Int) : List TierPosition :=
  tbl.filter fun p => inWindow startT endT p && passesAltFilters minAlt maxAlt p

/-- `COUNT(*)` per identifier inside the ranked-aircraft CTE. -/
def positionCount (tbl : List TierPosition) (startT endT : Int)
    (minAlt maxAlt : Option Int) (icao : String) : Nat :=
  (filteredPositions tbl startT endT minAlt maxAlt).countP (fun p => p.icao == icao)

/-- The identifiers grouped by the CTE: those with at least one filtered
row, subject to the military filter when `military_only` is set
(main.py:641-648). -/
def candidateIcaos (tbl : List TierPosition) (meta : MetadataTable) (startT endT : Int)
    (minAlt maxAlt : Option Int) (militaryOnly : Bool) : List String :=
  (((filteredPositions tbl startT endT minAlt maxAlt).map (fun p => p.icao)).dedup).filter
    (fun i => !militaryOnly || militaryFilterPasses meta i)

/-- The ranked-aircraft CTE (main.py:641-649): candidate identifiers
ordered by window position count descending, truncated to the top
`max_tracks`. -/
def rankedAircraft (tbl : List TierPosition) (meta : MetadataTable) (startT endT : Int)
    (minAlt maxAlt : Option Int) (militaryOnly : Bool) (maxTracks : Nat) : List String :=
  ((candidateIcaos tbl meta startT endT minAlt maxAlt militaryOnly).insertionSort
    (fun i j => positionCount tbl startT endT minAlt maxAlt j ≤
      positionCount tbl startT endT minAlt maxAlt i)).take maxTracks

/-- The outer SELECT of the bulk query (main.py:650-668): every filtered
row whose identifier is in the ranked set.  The `ORDER BY p.icao, p.time`
clause only permutes the rows and is not modelled; the metadata columns
joined for display (main.py:659-662) do not affect which rows appear. -/
def bulkQueryPositions (tbl : List TierPosition) (meta : MetadataTable) (startT endT : Int)
    (minAlt maxAlt : Option Int) (militaryOnly : Bool) (maxTracks : Nat) :
    List TierPosition :=
  (filteredPositions tbl startT endT minAlt maxAlt).filter
    (fun p => (rankedAircraft tbl meta startT endT minAlt maxAlt militaryOnly maxTracks).contains
      p.icao)

/-- `max_consecutive_errors` of `collect_loop` (main.py:352). -/
def max_consecutive_errors : Nat := 10

/-- Duration of the flat penalty pause, `asyncio.sleep(60)` (main.py:372). -/
def penalty_seconds : Nat := 60

/-- What a tick's fetch produced: `fetchSuccess` when
`fetch_aircraft_data` returned data, `fetchFailure` when it returned
`None` (timeout, non-200, or transport error, main.py:236-252). -/
inductive TickOutcome
  | fetchSuccess
  | fetchFailure
  deriving DecidableEq, Repr

/-- The sleeps a tick can perform: the 60-second penalty pause
(main.py:372) and the poll-interval sleep (main.py:375). -/
inductive SleepEvent
  | penaltyPause
  | pollInterval
  deriving DecidableEq, Repr

/-- Duration in seconds of each sleep event, given the configured
collection interval. -/
def sleepSeconds (collectionInterval : Nat) : SleepEvent → Nat
  | SleepEvent.penaltyPause => penalty_seconds
  | SleepEvent.pollInterval => collectionInterval

/-- One iteration of `collect_loop` (main.py:355-375) as a function of the
consecutive-error counter and the tick's fetch outcome: success stores and
zeroes the counter; failure increments it and, on reaching the threshold,
performs the penalty sleep once and zeroes the counter; either way the
poll-interval sleep ends the tick.  The result is the new counter and the
sleeps performed, in order. -/
def collectTick (consecutiveErrors : Nat) : TickOutcome → Nat × List SleepEvent
  | TickOutcome.fetchSuccess => (0, [SleepEvent.pollInterval])
  | TickOutcome.fetchFailure =>
      if consecutiveErrors + 1 ≥ max_consecutive_errors then
        (0, [SleepEvent.penaltyPause, SleepEvent.pollInterval])
      else (consecutiveErrors + 1, [SleepEvent.pollInterval])

/-- A run of consecutive loop iterations: final counter and the
concatenated sleep trace. -/
def runLoop (consecutiveErrors : Nat) : List TickOutcome → Nat × List SleepEvent
  | [] => (consecutiveErrors, [])
  | o :: rest =>
      let stepped := collectTick consecutiveErrors o
      let restRun := runLoop stepped.1 rest
      (restRun.1, stepped.2 ++ restRun.2)

/-- Lowercasing an identifier yields the empty string exactly for the
empty identifier. -/
theorem strLower_eq_empty_iff (s : String) : strLower s = "" ↔ s = "" := by
  constructor
  · intro h
    have hd : s.data.map Char.toLower = [] := congrArg String.data h
    cases s
    simp_all
  · intro h
    subst h
    rfl

/-- C1: the collector's transform produces a position record for a
snapshot entry if and only if the entry has both a latitude and a
longitude field and a non-empty identifier, and an entry that produces no
position record produces no metadata record either. -/
theorem position_record_iff_full_entry (st : MilState) (now : Int) (a : Aircraft) :
    ((processAircraft st now a).1.isSome =
      (a.lat.isSome && a.lon.isSome && !(a.hex.getD "" == ""))) ∧
    ((processAircraft st now a).1 = none → (processAircraft st now a).2 = none) := by
  rcases hlat : a.lat with _ | latv
  · simp [processAircraft, hlat]
  · rcases hlon : a.lon with _ | lonv
    · simp [processAircraft, hlat, hlon]
    · by_cases hid : strLower (a.hex.getD "") = ""
      · have hid0 : a.hex.getD "" = "" := (strLower_eq_empty_iff _).mp hid
        simp [processAircraft, hlat, hlon, hid0, show strLower "" = "" from rfl]
      · have hid0 : a.hex.getD "" ≠ "" := by
          intro h
          exact hid ((strLower_eq_empty_iff _).mpr (by rw [h]))
        simp [processAircraft, hlat, hlon, hid, hid0]

/-- Witness for C1 at a concrete entry with coordinates and identifier,
and at a concrete entry lacking the longitude. -/
theorem position_record_iff_full_entry_witness :
    ((processAircraft ⟨none, none, false⟩ 0
      { hex := some "ABC123", lat := some 10, lon := some 20, r := some "N12345" }).1.isSome =
      true) ∧
    ((processAircraft ⟨none, none, false⟩ 0 { hex := some "ABC123", lat := some 10 }).2 =
      none) := by
  constructor
  · rw [(position_record_iff_full_entry ⟨none, none, false⟩ 0
      { hex := some "ABC123", lat := some 10, lon := some 20, r := some "N12345" }).1]
    decide
  · exact (position_record_iff_full_entry ⟨none, none, false⟩ 0
      { hex := some "ABC123", lat := some 10 }).2 rfl

/-- C2: against an existing metadata row, each textual/numeric field keeps
its existing value when the incoming value is null and takes the incoming
value whenever it is non-null, while the military flag is always
overwritten with the incoming determination. -/
theorem metadata_field_merge (row : MetadataRow) (u : MetadataUpdate) (now : Int) :
    ((upsertMetadata (some row) u now).is_military = u.is_military) ∧
    (u.registration = none →
      (upsertMetadata (some row) u now).registration = row.registration) ∧
    (∀ v, u.registration = some v → (upsertMetadata (some row) u now).registration = some v) ∧
    (u.aircraft_type = none →
      (upsertMetadata (some row) u now).aircraft_type = row.aircraft_type) ∧
    (∀ v, u.aircraft_type = some v →
      (upsertMetadata (some row) u now).aircraft_type = some v) ∧
    (u.type_description = none →
      (upsertMetadata (some row) u now).type_description = row.type_description) ∧
    (∀ v, u.type_description = some v →
      (upsertMetadata (some row) u now).type_description = some v) ∧
    (u.owner_operator = none →
      (upsertMetadata (some row) u now).owner_operator = row.owner_operator) ∧
    (∀ v, u.owner_operator = some v →
      (upsertMetadata (some row) u now).owner_operator = some v) ∧
    (u.year = none → (upsertMetadata (some row) u now).year = row.year) ∧
    (∀ v, u.year = some v → (upsertMetadata (some row) u now).year = some v) := by
  refine ⟨rfl, ?_, ?_, ?_, ?_, ?_, ?_, ?_, ?_, ?_, ?_⟩ <;> intros <;>
    simp_all [upsertMetadata, coalesce]

/-- Witness for C2: a null incoming registration keeps the stored one,
while a non-null incoming type overwrites the stored one. -/
theorem metadata_field_merge_witness :
    ((upsertMetadata
      (some { icao := "abc123", registration := some "N1", aircraft_type := some "C172",
              type_description := none, owner_operator := none, year := some 1999,
              is_military := true, last_seen := 0, total_sightings := 3 })
      { icao := "abc123", registration := none, aircraft_type := some "B738",
        type_description := none, owner_operator := none, year := none,
        is_military := false } 5).registration = some "N1") ∧
    ((upsertMetadata
      (some { icao := "abc123", registration := some "N1", aircraft_type := some "C172",
              type_description := none, owner_operator := none, year := some 1999,
              is_military := true, last_seen := 0, total_sightings := 3 })
      { icao := "abc123", registration := none, aircraft_type := some "B738",
        type_description := none, owner_operator := none, year := none,
        is_military := false } 5).aircraft_type = some "B738") :=
  ⟨(metadata_field_merge _ _ 5).2.1 rfl, (metadata_field_merge _ _ 5).2.2.2.2.1 "B738" rfl⟩

/-- Sighting count after a series of upserts starting from an existing
row. -/
theorem sightingsOf_applyUpserts_some (updates : List (MetadataUpdate × Int)) :
    ∀ row : MetadataRow,
      sightingsOf (applyUpserts (some row) updates) = row.total_sightings + updates.length := by
  induction updates with
  | nil => intro row; rfl
  | cons u rest ih =>
      intro row
      have hstep : applyUpserts (some row) (u :: rest) =
          applyUpserts (some (upsertMetadata (some row) u.1 u.2)) rest := rfl
      rw [hstep, ih]
      simp [upsertMetadata]
      omega

/-- One upsert never decreases the visible sighting count. -/
theorem sightings_mono_step (st : Option MetadataRow) (u : MetadataUpdate × Int) :
    sightingsOf st ≤ sightingsOf (some (upsertMetadata st u.1 u.2)) := by
  cases st <;> simp [sightingsOf, upsertMetadata]

/-- A series of upserts never decreases the visible sighting count. -/
theorem sightingsOf_le_applyUpserts (updates : List (MetadataUpdate × Int)) :
    ∀ st : Option MetadataRow, sightingsOf st ≤ sightingsOf (applyUpserts st updates) := by
  induction updates with
  | nil => intro st; exact le_refl _
  | cons u rest ih =>
      intro st
      exact le_trans (sightings_mono_step st u) (ih (some (upsertMetadata st u.1 u.2)))

/-- Splitting a series of upserts. -/
theorem applyUpserts_append (st : Option MetadataRow)
    (us vs : List (MetadataUpdate × Int)) :
    applyUpserts st (us ++ vs) = applyUpserts (applyUpserts st us) vs := by
  simp [applyUpserts, List.foldl_append]

/-- C3: after N upserts the sighting count equals the initial count plus N
(exactly N when the row is newly created, the first upsert creating it
with count 1), and the count is monotonically non-decreasing across every
sequence of upserts. -/
theorem sighting_count_accumulates (row : MetadataRow)
    (updates moreUpdates : List (MetadataUpdate × Int)) :
    (sightingsOf (applyUpserts (some row) updates) =
      row.total_sightings + updates.length) ∧
    (updates ≠ [] → sightingsOf (applyUpserts none updates) = updates.length) ∧
    (sightingsOf (applyUpserts (some row) updates) ≤
      sightingsOf (applyUpserts (some row) (updates ++ moreUpdates))) ∧
    (sightingsOf (applyUpserts none updates) ≤
      sightingsOf (applyUpserts none (updates ++ moreUpdates))) := by
  refine ⟨sightingsOf_applyUpserts_some updates row, ?_, ?_, ?_⟩
  · intro h
    cases updates with
    | nil => exact absurd rfl h
    | cons u rest =>
        have hstep : applyUpserts none (u :: rest) =
            applyUpserts (some (upsertMetadata none u.1 u.2)) rest := rfl
        rw [hstep, sightingsOf_applyUpserts_some]
        simp [upsertMetadata]
        omega
  · rw [applyUpserts_append]
    exact sightingsOf_le_applyUpserts moreUpdates _
  · rw [applyUpserts_append]
    exact sightingsOf_le_applyUpserts moreUpdates _

/-- Witness for C3: one upsert on a fresh identifier yields count 1. -/
theorem sighting_count_accumulates_witness :
    sightingsOf (applyUpserts none
      [({ icao := "abc123", registration := some "N12345", aircraft_type := none,
          type_description := none, owner_operator := none, year := none,
          is_military := false }, 0)]) = 1 :=
  (sighting_count_accumulates
    { icao := "abc123", registration := none, aircraft_type := none,
      type_description := none, owner_operator := none, year := none,
      is_military := false, last_seen := 0, total_sightings := 0 }
    [({ icao := "abc123", registration := some "N12345", aircraft_type := none,
        type_description := none, owner_operator := none, year := none,
        is_military := false }, 0)] []).2.1 (List.cons_ne_nil _ _)

/-- Counterexample to C4: an explicit `full` request with a 40-day span
reaches the handler as the string `"full"`, and the handler selects the
five-minute tier (the span test is not gated on the request being
absent), while the claim predicts the raw tier for an explicit `full`
request at any span. -/
theorem track_tier_full_counterexample :
    chooseTrackTier (trackResolutionParam (some ResolutionReq.full)) (daysToSeconds 40) =
      Tier.fiveMin ∧
    claimTrackTier (some ResolutionReq.full) (daysToSeconds 40) = Tier.raw ∧
    Tier.fiveMin ≠ Tier.raw := by decide

/-- C4 as amended: per-aircraft tier selection is a pure function of span
and request, but an explicit `full` request is indistinguishable from an
omitted one and the span thresholds apply to every request: explicit
`5min`, or span > 30 days, selects the five-minute tier; otherwise
explicit `1min`, or span > 7 days, the minute tier; otherwise raw.  In
particular a 10-day span with no explicit resolution selects the minute
tier. -/
theorem track_tier_amended_rule (req : Option ResolutionReq) (timeRangeSec : Int) :
    (chooseTrackTier (trackResolutionParam req) timeRangeSec =
      amendedTrackTier req timeRangeSec) ∧
    chooseTrackTier (trackResolutionParam none) (daysToSeconds 10) = Tier.oneMin := by
  constructor
  · rcases req with _ | r
    · simp [chooseTrackTier, trackResolutionParam, amendedTrackTier]
    · cases r <;> simp [chooseTrackTier, trackResolutionParam, amendedTrackTier]
  · decide

/-- Witness for C4's amended rule at a concrete request and span. -/
theorem track_tier_amended_rule_witness :
    chooseTrackTier (trackResolutionParam (some ResolutionReq.oneMin)) (daysToSeconds 3) =
      amendedTrackTier (some ResolutionReq.oneMin) (daysToSeconds 3) :=
  (track_tier_amended_rule (some ResolutionReq.oneMin) (daysToSeconds 3)).1

/-- C5: the endpoint's validation regex rejects `auto` even though the
handler's own tier logic implements the claimed span-based behavior for
`auto`; the remaining explicit values behave as the claim states (an
explicit `full` always selects the raw tier, even at a 90-day span). -/
theorem bulk_auto_validation_bug :
    resolutionAllowed "auto" = false ∧
    (∀ timeRangeSec : Int, chooseBulkTier "full" timeRangeSec = Tier.raw) ∧
    chooseBulkTier "full" (daysToSeconds 90) = Tier.raw ∧
    (∀ timeRangeSec : Int, timeRangeSec > daysToSeconds 7 →
      chooseBulkTier "auto" timeRangeSec = Tier.fiveMin) ∧
    (∀ timeRangeSec : Int, daysToSeconds 2 < timeRangeSec → timeRangeSec ≤ daysToSeconds 7 →
      chooseBulkTier "auto" timeRangeSec = Tier.oneMin) ∧
    (∀ timeRangeSec : Int, timeRangeSec ≤ daysToSeconds 2 →
      chooseBulkTier "auto" timeRangeSec = Tier.raw) ∧
    (∀ timeRangeSec : Int, chooseBulkTier "5min" timeRangeSec = Tier.fiveMin) ∧
    (∀ timeRangeSec : Int, chooseBulkTier "1min" timeRangeSec = Tier.oneMin) := by
  refine ⟨by decide, ?_, by decide, ?_, ?_, ?_, ?_, ?_⟩ <;> intros <;>
    simp_all [chooseBulkTier, daysToSeconds] <;> split_ifs <;> first | rfl | omega

/-- Witness for C5 at concrete spans for each `auto` regime and each
explicit value. -/
theorem bulk_auto_validation_bug_witness :
    resolutionAllowed "auto" = false ∧
    chooseBulkTier "auto" (daysToSeconds 8) = Tier.fiveMin ∧
    chooseBulkTier "auto" (daysToSeconds 3) = Tier.oneMin ∧
    chooseBulkTier "auto" (daysToSeconds 1) = Tier.raw ∧
    chooseBulkTier "full" (daysToSeconds 90) = Tier.raw :=
  ⟨bulk_auto_validation_bug.1,
   bulk_auto_validation_bug.2.2.2.1 _ (by decide),
   bulk_auto_validation_bug.2.2.2.2.1 _ (by decide) (by decide),
   bulk_auto_validation_bug.2.2.2.2.2.1 _ (by decide),
   bulk_auto_validation_bug.2.2.1⟩

/-- C10: the bulk endpoint's resolution defaults to `5min`, so an omitted
parameter selects the five-minute tier at every span, and among the
values the validator accepts the raw tier is selected exactly for an
explicit `full`. -/
theorem bulk_default_resolution :
    bulkResolutionDefault = "5min" ∧
    (∀ timeRangeSec : Int, chooseBulkTier bulkResolutionDefault timeRangeSec = Tier.fiveMin) ∧
    (∀ (res : String) (timeRangeSec : Int), resolutionAllowed res = true →
      (chooseBulkTier res timeRangeSec = Tier.raw ↔ res = "full")) := by
  refine ⟨rfl, ?_, ?_⟩
  · intro timeRangeSec
    simp [chooseBulkTier, bulkResolutionDefault]
  · intro res timeRangeSec hres
    have hcases : res = "full" ∨ res = "1min" ∨ res = "5min" := by
      simpa [resolutionAllowed, or_assoc] using hres
    rcases hcases with h | h | h <;> subst h <;> simp [chooseBulkTier]

/-- Witness for C10 at a concrete short span. -/
theorem bulk_default_resolution_witness :
    chooseBulkTier bulkResolutionDefault (daysToSeconds 1) = Tier.fiveMin ∧
    (chooseBulkTier "1min" (daysToSeconds 1) = Tier.raw ↔ ("1min" : String) = "full") :=
  ⟨bulk_default_resolution.2.1 (daysToSeconds 1),
   bulk_default_resolution.2.2 "1min" (daysToSeconds 1) (by decide)⟩

/-- C6: under `military_only`, the ranked-aircraft filter rejects an
identifier exactly when a metadata row exists with the military flag
explicitly false (true flags, NULL flags, and absent rows all pass); in
the concrete 3-day scenario with one military-flagged aircraft and one
aircraft with no metadata row, both with in-range positions, the bulk
query returns positions for both. -/
theorem bulk_military_filter_semantics :
    (∀ (meta : MetadataTable) (icao : String),
      militaryFilterPasses meta icao = false ↔ meta.lookup icao = some (some false)) ∧
    ((bulkQueryPositions
        [{ icao := "ae01ce", timeVal := 3600, lat := 10, lon := 20, alt_baro := some 30000,
           flight := none, gs := none, track := none },
         { icao := "abc123", timeVal := 7200, lat := 11, lon := 21, alt_baro := some 31000,
           flight := none, gs := none, track := none }]
        [("ae01ce", some true)] 0 (daysToSeconds 3) none none true 500).map
      (fun p => p.icao) = ["ae01ce", "abc123"]) := by
  constructor
  · intro meta icao
    rcases h : meta.lookup icao with _ | b
    · simp [militaryFilterPasses, h]
    · rcases b with _ | b
      · simp [militaryFilterPasses, h]
      · cases b <;> simp [militaryFilterPasses, h]
  · decide

/-- Witness for C6's filter characterization at a concrete table with an
explicitly-false flag. -/
theorem bulk_military_filter_semantics_witness :
    militaryFilterPasses [("abc123", some false)] "abc123" = false ↔
      ([("abc123", some false)] : MetadataTable).lookup "abc123" = some (some false) :=
  bulk_military_filter_semantics.1 [("abc123", some false)] "abc123"

/-- C7: a reference-dataset refresh that actually attempts the fetch (not
short-circuited by the in-progress flag or a still-valid cache) and fails
with a timeout, a non-200 response, or a parse failure replaces the cache
with an empty mapping, records the refresh instant anyway, and returns
failure; the embedding is a total function, mirroring that every handler
ends in `return False` and no exception escapes. -/
theorem reference_refresh_failure_path (st : MilState) (outcome : MilFetchOutcome) (now : Int)
    (hload : st.military_db_loading = false)
    (hcache : cacheValid st now = false)
    (hfail : ∀ dbData, outcome ≠ MilFetchOutcome.success dbData) :
    load_military_database st outcome now =
      ({ st with military_database := some [], military_db_last_updated := some now },
        false) := by
  cases outcome with
  | success dbData => exact absurd rfl (hfail dbData)
  | httpStatus status => simp [load_military_database, hload, hcache]
  | timedOut => simp [load_military_database, hload, hcache]
  | parseFailure => simp [load_military_database, hload, hcache]

/-- Witness for C7: a timeout on a never-loaded, idle cache. -/
theorem reference_refresh_failure_path_witness :
    load_military_database ⟨none, none, false⟩ MilFetchOutcome.timedOut 1000 =
      ({ military_database := some [], military_db_last_updated := some 1000,
         military_db_loading := false }, false) :=
  reference_refresh_failure_path ⟨none, none, false⟩ MilFetchOutcome.timedOut 1000 rfl rfl
    (fun _ h => MilFetchOutcome.noConfusion h)

/-- Counterexample to C8: the load installs the empty identifier as a key
when the upstream JSON contains it with flag `"10"`, yet the lookup
returns false for the empty identifier (the falsy-identifier guard fires
before the membership test), so "returns true exactly when the uppercased
identifier is a key of the installed mapping" fails. -/
theorem reference_lookup_empty_id_counterexample :
    (((buildMilitaryDb [("", ["T1", "TY", "10"])]).lookup (strUpper "")).isSome = true) ∧
    (is_military_aircraft
      { military_database := some (buildMilitaryDb [("", ["T1", "TY", "10"])]),
        military_db_last_updated := some 0, military_db_loading := false }
      { hex := some "" } = false) := by decide

/-- Unfolding of the load's filtering loop on one entry. -/
theorem buildMilitaryDb_cons (e : String × List String) (rest : List (String × List String)) :
    buildMilitaryDb (e :: rest) =
      if 3 ≤ e.2.length ∧ e.2.getD 2 "" = "10" then
        (strUpper e.1,
          { tail := e.2.getD 0 "", typeCode := e.2.getD 1 "", flag := e.2.getD 2 "",
            description := e.2.getD 3 "" }) :: buildMilitaryDb rest
      else buildMilitaryDb rest := by
  by_cases hc : 3 ≤ e.2.length ∧ e.2.getD 2 "" = "10"
  · rw [if_pos hc]
    unfold buildMilitaryDb
    simp only [List.filterMap_cons]
    rw [if_pos hc]
  · rw [if_neg hc]
    unfold buildMilitaryDb
    simp only [List.filterMap_cons]
    rw [if_neg hc]

/-- C8 as amended: the lookup returns false when the cache is unset or
empty, and for a non-empty identifier it returns true exactly when the
uppercased identifier is a key of the installed mapping; the load keys
its mapping by the uppercased identifiers of exactly the entries whose
info array has length at least 3 and flag `"10"`. -/
theorem reference_lookup_amended (st : MilState) (a : Aircraft) :
    (st.military_database = none → is_military_aircraft st a = false) ∧
    (st.military_database = some [] → is_military_aircraft st a = false) ∧
    (∀ (db : MilDb) (hexCode : String), st.military_database = some db →
      a.hex = some hexCode → hexCode ≠ "" →
      is_military_aircraft st a = (db.lookup (strUpper hexCode)).isSome) ∧
    (∀ dbData : List (String × List String), (buildMilitaryDb dbData).map Prod.fst =
      (dbData.filter fun e => decide (3 ≤ e.2.length ∧ e.2.getD 2 "" = "10")).map
        (fun e => strUpper e.1)) := by
  refine ⟨?_, ?_, ?_, ?_⟩
  · intro h
    simp [is_military_aircraft, h]
  · intro h
    cases ha : a.hex with
    | none => simp [is_military_aircraft, h, ha]
    | some hexCode =>
        by_cases he : hexCode = "" <;> simp [is_military_aircraft, h, ha, he]
  · intro db hexCode hdb hhex hne
    simp [is_military_aircraft, hdb, hhex, hne]
  · intro dbData
    induction dbData with
    | nil => rfl
    | cons e rest ih =>
        rw [buildMilitaryDb_cons, List.filter_cons]
        split_ifs <;> simp_all

/-- Witness for C8's amended rule: a non-empty lowercase identifier is
looked up by uppercased membership. -/
theorem reference_lookup_amended_witness :
    is_military_aircraft
      { military_database := some [("AE01CE",
          { tail := "T1", typeCode := "TY", flag := "10", description := "" })],
        military_db_last_updated := some 0, military_db_loading := false }
      { hex := some "ae01ce" } =
      (([("AE01CE", { tail := "T1", typeCode := "TY", flag := "10", description := "" })] :
        MilDb).lookup (strUpper "ae01ce")).isSome :=
  (reference_lookup_amended _ _).2.2.1 _ "ae01ce" rfl rfl (by decide)

/-- C9: the consecutive-failure counter resets to zero on any successful
tick, increments by one on a failing tick below the threshold, and on
reaching 10 the tick performs the penalty pause once and resets the
counter; a run of 10 straight failures from zero sleeps the penalty
exactly once and ends with counter zero, a following success keeps it at
zero, and every tick ends with the poll-interval sleep. -/
theorem backoff_penalty_once :
    (∀ c, collectTick c TickOutcome.fetchSuccess = (0, [SleepEvent.pollInterval])) ∧
    (∀ c, c + 1 < max_consecutive_errors →
      collectTick c TickOutcome.fetchFailure = (c + 1, [SleepEvent.pollInterval])) ∧
    (∀ c, max_consecutive_errors ≤ c + 1 →
      collectTick c TickOutcome.fetchFailure =
        (0, [SleepEvent.penaltyPause, SleepEvent.pollInterval])) ∧
    ((runLoop 0 (List.replicate max_consecutive_errors TickOutcome.fetchFailure)).1 = 0) ∧
    ((runLoop 0 (List.replicate max_consecutive_errors TickOutcome.fetchFailure)).2.count
      SleepEvent.penaltyPause = 1) ∧
    ((runLoop 0 (List.replicate max_consecutive_errors TickOutcome.fetchFailure ++
      [TickOutcome.fetchSuccess])).1 = 0) ∧
    (∀ c o, SleepEvent.pollInterval ∈ (collectTick c o).2) := by
  refine ⟨fun c => rfl, ?_, ?_, by decide, by decide, by decide, ?_⟩
  · intro c h
    have hlt : ¬(c + 1 ≥ max_consecutive_errors) := by omega
    simp [collectTick, hlt]
  · intro c h
    have hge : c + 1 ≥ max_consecutive_errors := by omega
    simp [collectTick, hge]
  · intro c o
    cases o with
    | fetchSuccess => simp [collectTick]
    | fetchFailure =>
        simp only [collectTick]
        split_ifs <;> simp

/-- Witness for C9's counter transitions at concrete counter values. -/
theorem backoff_penalty_once_witness :
    collectTick 3 TickOutcome.fetchFailure = (4, [SleepEvent.pollInterval]) ∧
    collectTick 9 TickOutcome.fetchFailure =
      (0, [SleepEvent.penaltyPause, SleepEvent.pollInterval]) :=
  ⟨backoff_penalty_once.2.1 3 (by decide), backoff_penalty_once.2.2.1 9 (by decide)⟩

end AdsbTrack
